import Mathlib

/-!
Verification of the schema-to-document mapping and export pipeline of the
`backend-migracion` service (FastAPI + pyodbc, files `api.py`, `db/database.py`,
`db/models.py`).  The Python code is shallowly embedded: pure helpers become
Lean functions, the database and the filesystem become explicit parameters
(a foreign-key catalog is a list of edges, query execution is a function from
the selected column list to result rows, write success is a flag), and each
HTTP handler becomes a function returning its outcome together with the list
of resource events (connection/cursor open and close, executed queries,
artifact writes) it performs, in program order.
-/

namespace Migracion

/-! ## Character helpers

Models of the ASCII character classes used by the regexes in
`DatabaseManager.format_frappe_fieldname` and of Python `str.lower`
(the Python code only ever lowercases ASCII identifiers; `Char.toLower`
from core Lean is exactly the ASCII lowercasing map). -/

/-- Model of the regex class `[A-Z]` (codepoints 65..90). -/
def isUpperAZ (c : Char) : Bool := 65 ≤ c.toNat && c.toNat ≤ 90

/-- Model of the regex class `[a-z]` (codepoints 97..122). -/
def isLowerAZ (c : Char) : Bool := 97 ≤ c.toNat && c.toNat ≤ 122

/-- Model of the regex class `[a-z0-9]`. -/
def isLowerDigit (c : Char) : Bool := isLowerAZ c || (48 ≤ c.toNat && c.toNat ≤ 57)

/-- Model of Python `str.lower` on identifiers: lowercase each character
(ASCII `A`-`Z` mapped to `a`-`z`, everything else untouched, which is what
`Char.toLower` does). -/
def pyLower (s : String) : String := ⟨s.data.map Char.toLower⟩

/-! ## Type Mapper: `DatabaseManager.map_sql_type_to_frappe` -/

/-- The static native-type to Frappe-type dictionary from
`DatabaseManager.map_sql_type_to_frappe` (`db/database.py`), in source order. -/
def frappeMapping : List (String × String) :=
  [("varchar", "Data"), ("nvarchar", "Data"), ("char", "Data"),
   ("text", "Text"), ("ntext", "Text"),
   ("int", "Int"), ("smallint", "Int"), ("bigint", "Int"),
   ("decimal", "Float"), ("numeric", "Float"), ("float", "Float"), ("real", "Float"),
   ("date", "Date"), ("datetime", "Datetime"), ("datetime2", "Datetime"),
   ("smalldatetime", "Datetime"), ("time", "Time"), ("bit", "Check"),
   ("tinyint", "Int"), ("binary", "Data"), ("varbinary", "Data"),
   ("uniqueidentifier", "Data")]

/-- `DatabaseManager.map_sql_type_to_frappe`: exact dictionary lookup of the
lowercased input, defaulting to `"Data"` (`mapping.get(sql_type.lower(), "Data")`).
Note the source performs no stripping of a parenthesized suffix. -/
def map_sql_type_to_frappe (sql_type : String) : String :=
  ((frappeMapping.lookup (pyLower sql_type)).getD "Data")

/-! ## Identifier Normalizer: `DatabaseManager.format_frappe_fieldname`

The source is
`s1 = re.sub("(.)([A-Z][a-z]+)", r"\1_\2", field_name)` followed by
`re.sub("([a-z0-9])([A-Z])", r"\1_\2", s1).lower()`.
Each `re.sub` is embedded as a recursive scan over the character list with
Python's leftmost, non-overlapping, greedy match semantics. -/

/-- One `re.sub("(.)([A-Z][a-z]+)", r"\1_\2", s)` pass: scanning left to
right, when a non-newline character is followed by an uppercase letter and at
least one lowercase letter, an underscore is inserted after the first
character; the greedy lowercase run is consumed and scanning resumes after it. -/
def sub1 : List Char → List Char
  | [] => []
  | [c] => [c]
  | c :: d :: rest =>
    if c ≠ '\n' && isUpperAZ d && (match rest with | e :: _ => isLowerAZ e | [] => false) then
      c :: '_' :: d :: (rest.takeWhile isLowerAZ ++ sub1 (rest.dropWhile isLowerAZ))
    else
      c :: sub1 (d :: rest)
termination_by l => l.length
decreasing_by
  · simp only [List.length_cons]
    have h := (List.dropWhile_sublist (l := rest) isLowerAZ).length_le
    omega
  · simp only [List.length_cons]
    omega

/-- One `re.sub("([a-z0-9])([A-Z])", r"\1_\2", s)` pass: an underscore is
inserted between a lowercase letter or digit and a following uppercase
letter; both matched characters are consumed. -/
def sub2 : List Char → List Char
  | [] => []
  | [c] => [c]
  | c :: d :: rest =>
    if isLowerDigit c && isUpperAZ d then
      c :: '_' :: d :: sub2 rest
    else
      c :: sub2 (d :: rest)
termination_by l => l.length
decreasing_by
  · simp only [List.length_cons]
    omega
  · simp only [List.length_cons]
    omega

/-- `DatabaseManager.format_frappe_fieldname`: the two regex substitutions
followed by `.lower()`. -/
def format_frappe_fieldname (field_name : String) : String :=
  pyLower ⟨sub2 (sub1 field_name.data)⟩

/-- Characters allowed in an identifier that is already snake_case with no
capitals: lowercase ASCII letters, digits and underscore. -/
def isSnakeChar (c : Char) : Bool :=
  isLowerAZ c || (48 ≤ c.toNat && c.toNat ≤ 57) || c == '_'

/-! ## Python values

Database cell values and JSON documents as one value type: the JSON-native
kinds plus the non-native kinds the exporter has to handle
(`decimal.Decimal` as its rational value, `datetime`/`date` carrying their
`isoformat` rendering, `bytes` as a byte list). -/

/-- A Python value as it occurs in database rows, JSON documents and HTTP
responses. -/
inductive PyVal where
  | vnull
  | vbool (b : Bool)
  | vint (n : Int)
  | vfloat (q : ℚ)
  | vstr (s : String)
  | vdecimal (q : ℚ)
  | vdatetime (iso : String)
  | vdate (iso : String)
  | vbytes (bs : List Nat)
  | vlist (xs : List PyVal)
  | vdict (kvs : List (String × PyVal))

mutual

/-- Model of `is_serializable` (both in `DatabaseManager` and in `api.py`):
whether `json.dumps(value)` succeeds, i.e. the value is JSON-native
(containers recursively so).  `Decimal`, `datetime`, `date` and `bytes`
values make `json.dumps` raise `TypeError`. -/
def is_serializable : PyVal → Bool
  | .vnull => true
  | .vbool _ => true
  | .vint _ => true
  | .vfloat _ => true
  | .vstr _ => true
  | .vdecimal _ => false
  | .vdatetime _ => false
  | .vdate _ => false
  | .vbytes _ => false
  | .vlist xs => is_serializable_list xs
  | .vdict kvs => is_serializable_kvs kvs

/-- All elements of a list are JSON-serializable. -/
def is_serializable_list : List PyVal → Bool
  | [] => true
  | x :: xs => is_serializable x && is_serializable_list xs

/-- All values of an association list are JSON-serializable. -/
def is_serializable_kvs : List (String × PyVal) → Bool
  | [] => true
  | (_, v) :: kvs => is_serializable v && is_serializable_kvs kvs

end

/-- Lossy UTF-8 decoding, modelling Python `bytes.decode("utf-8", errors="ignore")`:
well-formed sequences decode to their scalar value, bytes that cannot start or
complete a valid sequence are dropped. -/
def utf8DecodeIgnore : List Nat → List Char
  | [] => []
  | b :: rest =>
    if b < 128 then
      Char.ofNat b :: utf8DecodeIgnore rest
    else if 194 ≤ b && b ≤ 223 then
      match rest with
      | [] => []
      | b2 :: rest2 =>
        if 128 ≤ b2 && b2 ≤ 191 then
          Char.ofNat ((b - 192) * 64 + (b2 - 128)) :: utf8DecodeIgnore rest2
        else utf8DecodeIgnore (b2 :: rest2)
    else if 224 ≤ b && b ≤ 239 then
      match rest with
      | b2 :: b3 :: rest3 =>
        let c := (b - 224) * 4096 + (b2 - 128) * 64 + (b3 - 128)
        if 128 ≤ b2 && b2 ≤ 191 && (128 ≤ b3 && b3 ≤ 191) &&
            (2048 ≤ c && (c < 55296 || 57343 < c)) then
          Char.ofNat c :: utf8DecodeIgnore rest3
        else utf8DecodeIgnore (b2 :: b3 :: rest3)
      | short => utf8DecodeIgnore short
    else if 240 ≤ b && b ≤ 244 then
      match rest with
      | b2 :: b3 :: b4 :: rest4 =>
        let c := (b - 240) * 262144 + (b2 - 128) * 4096 + (b3 - 128) * 64 + (b4 - 128)
        if 128 ≤ b2 && b2 ≤ 191 && (128 ≤ b3 && b3 ≤ 191) && (128 ≤ b4 && b4 ≤ 191) &&
            (65536 ≤ c && c ≤ 1114111) then
          Char.ofNat c :: utf8DecodeIgnore rest4
        else utf8DecodeIgnore (b2 :: b3 :: b4 :: rest4)
      | short => utf8DecodeIgnore short
    else
      utf8DecodeIgnore rest

/-- Model of Python `str(value)` for the residual fallback branch of
`serialize_value` (never reached for the scalar cell kinds a cursor yields,
since those are either JSON-native or caught by the earlier branches). -/
def pyStr : PyVal → String
  | .vnull => "None"
  | .vbool b => if b then "True" else "False"
  | .vint n => toString n
  | .vfloat q => toString q
  | .vstr s => s
  | .vdecimal q => toString q
  | .vdatetime iso => iso
  | .vdate iso => iso
  | .vbytes _ => ""
  | .vlist _ => ""
  | .vdict _ => ""

/-- `DatabaseManager.serialize_value`: `datetime`/`date` to `isoformat`,
`Decimal` to `float`, `bytes` decoded as UTF-8 with errors ignored, anything
else to `str(value)`. -/
def serialize_value : PyVal → PyVal
  | .vdatetime iso => .vstr iso
  | .vdate iso => .vstr iso
  | .vdecimal q => .vfloat q
  | .vbytes bs => .vstr ⟨utf8DecodeIgnore bs⟩
  | v => .vstr (pyStr v)

/-- The per-cell step of `DatabaseManager.export_table_to_json`:
`if not is_serializable(value): value = serialize_value(value)`. -/
def exportCell (v : PyVal) : PyVal :=
  if is_serializable v then v else serialize_value v

/-- `DatabaseManager.export_table_to_json`: executes the projection query
(the result columns are the selected fields), coerces each non-serializable
cell through `serialize_value`, writes the artifact
(`table_name.json` holding the same dictionary) and returns
`{"table_name": ..., "data": ...}`.  The database is a function from the
selected column list to the result rows. -/
def export_table_to_json (table_name : String) (fields : List String)
    (db : List String → List (List PyVal)) : PyVal :=
  let rows := db fields
  let table_data := rows.map (fun row =>
    PyVal.vdict ((fields.zip row).map (fun kv => (kv.1, exportCell kv.2))))
  PyVal.vdict [("table_name", .vstr table_name), ("data", .vlist table_data)]

/-! ## The pydantic models of `db/models.py` -/

/-- `ConexionParams` from `db/models.py`. -/
structure ConexionParams where
  host : String
  database : String
  password : String

/-- `Field` from `db/models.py`. -/
structure Field where
  nombre_campo : String
  tipo_campo : String
  obligatorio : Bool

/-- `Payload` from `db/models.py`. -/
structure Payload where
  params : ConexionParams
  fields : List Field

/-- `Relacion` from `db/models.py`: one foreign-key edge, named as the SQL
aliases name them (`tabla_padre` is the referencing table holding the foreign
key, `tabla_hija` the referenced table). -/
structure Relacion where
  tabla_padre : String
  columna_padre : String
  tabla_hija : String
  columna_hija : String

/-! ## Relationship Discoverer

Both queries join `sys.foreign_keys` with `sys.foreign_key_columns`; the
catalog is modelled as the list of edges that join produces, in enumeration
order.  `get_table_relations` adds
`WHERE OBJECT_NAME(parent) = t OR OBJECT_NAME(referenced) = t`. -/

/-- `DatabaseManager.get_all_relations`: the unfiltered catalog scan. -/
def get_all_relations (catalog : List Relacion) : List Relacion := catalog

/-- `DatabaseManager.get_table_relations`: the catalog scan restricted by the
WHERE clause to edges having the table at either endpoint. -/
def get_table_relations (catalog : List Relacion) (table_name : String) : List Relacion :=
  catalog.filter (fun e => e.tabla_padre == table_name || e.tabla_hija == table_name)

/-! ## Document Assembler: `generate_doctype_json` and `_process_field`

`_process_field` reads, beyond the `db/models.py` `Field` attributes, the
optional override attributes `tipo_campo_erp` and `nombre_campo_erp`, and
`generate_doctype_json` reads `payload.module` and `payload.is_child_table`;
the structures below carry exactly the attributes that code accesses.  An
override that is `None` or the empty string is falsy in Python. -/

/-- A field specification as consumed by `DatabaseManager._process_field`. -/
structure ErpField where
  nombre_campo : String
  tipo_campo : String
  obligatorio : Bool
  tipo_campo_erp : Option String
  nombre_campo_erp : Option String

/-- The payload shape consumed by `DatabaseManager.generate_doctype_json`. -/
structure DocPayload where
  module : String
  is_child_table : Option Bool
  fields : List ErpField

/-- Python truthiness of an optional string: `None` and `""` are falsy. -/
def pyTruthy : Option String → Bool
  | none => false
  | some s => !(s == "")

/-- The `valid_frappe_fieldtypes` whitelist from `_process_field`, in source
order. -/
def valid_frappe_fieldtypes : List String :=
  ["Data", "Text", "Int", "Float", "Date", "Datetime", "Time", "Check", "Link", "Select"]

/-- The dictionary `_process_field` returns for one field. -/
structure FieldData where
  fieldname : String
  label : String
  fieldtype : String
  reqd : Bool

/-- `DatabaseManager._process_field`: the field type is the override when it
is truthy and whitelisted, otherwise the mapped native type; the field name is
the lowercased override name when truthy (label keeps its casing), otherwise
the normalized source column name (label keeps the source casing). -/
def process_field (field : ErpField) : FieldData :=
  let fieldtype :=
    if pyTruthy field.tipo_campo_erp then
      if valid_frappe_fieldtypes.contains (field.tipo_campo_erp.getD "") then
        field.tipo_campo_erp.getD ""
      else
        map_sql_type_to_frappe field.tipo_campo
    else
      map_sql_type_to_frappe field.tipo_campo
  if pyTruthy field.nombre_campo_erp then
    { fieldname := pyLower (field.nombre_campo_erp.getD "")
      label := field.nombre_campo_erp.getD ""
      fieldtype := fieldtype
      reqd := field.obligatorio }
  else
    { fieldname := format_frappe_fieldname field.nombre_campo
      label := field.nombre_campo
      fieldtype := fieldtype
      reqd := field.obligatorio }

/-- The warning branch of `_process_field`: an override type was supplied but
is not in the whitelist (the source prints an advisory and falls back to the
mapped native type). -/
def process_field_warns (field : ErpField) : Bool :=
  pyTruthy field.tipo_campo_erp &&
    !(valid_frappe_fieldtypes.contains (field.tipo_campo_erp.getD ""))

/-- The doctype dictionary `generate_doctype_json` builds (boilerplate keys
that are constant empty strings or lists are elided; the keys the assembly
logic fills are all present). -/
structure DoctypeJson where
  module : String
  name : String
  owner : String
  engine : String
  doctype : String
  document_type : String
  creation : String
  field_order : List String
  fields : List FieldData
  is_child_table : Bool

/-- The doctype dictionary as assembled in memory by
`DatabaseManager.generate_doctype_json` before it is saved: one
`_process_field` pass per payload field, appending each result to `fields`
and its `fieldname` to `field_order`.  `creation` is `datetime.now()`,
supplied here as a parameter. -/
def assemble_doctype (table_name : String) (payload : DocPayload) (now : String) : DoctypeJson :=
  let fds := payload.fields.map process_field
  { module := payload.module
    name := pyLower table_name
    owner := "Administrator"
    engine := "InnoDB"
    doctype := "DocType"
    document_type := "Setup"
    creation := now
    field_order := fds.map (fun fd => fd.fieldname)
    fields := fds
    is_child_table := payload.is_child_table.getD false }

/-- `DatabaseManager.generate_doctype_json`: assembles the doctype, writes it
to `doctype_` + table + `.json`, and returns the Python return value paired
with the artifact written.  On a write failure (`writeErr = some e`) it
returns the error dictionary; on success the source function ends without a
`return` statement, so the Python return value is `None` (`none` here). -/
def generate_doctype_json (table_name : String) (payload : DocPayload) (now : String)
    (writeErr : Option String) : Option PyVal × Option DoctypeJson :=
  let doc := assemble_doctype table_name payload now
  match writeErr with
  | none => (none, some doc)
  | some e => (some (.vdict [("table_name", .vstr table_name), ("error", .vstr e)]), none)

/-! ## The HTTP handlers of `api.py`

Each handler becomes a function from its inputs (plus the database content
and success flags for connection, cursor creation, query execution and
artifact write) to its outcome and the ordered list of resource events it
performs.  Note `api.py`'s `get_table_data` wraps its body in
`try/except Exception/finally`; the `except` clause also catches the
handler's own `HTTPException(400)` and then evaluates
`HTTPException(code=500, ...)` — an invalid keyword argument (`status_code`
is the parameter name) — so every exception of the body surfaces as a
`TypeError`, i.e. a server-side error, never the intended response. -/

/-- A resource or database event performed by a handler, in program order. -/
inductive Event where
  | connOpen
  | connClose
  | curOpen
  | curClose
  | query (sql : String)
  | write (content : PyVal)

/-- Event classifiers. -/
def isConnOpen : Event → Bool | .connOpen => true | _ => false

/-- True only for the connection-close event. -/
def isConnClose : Event → Bool | .connClose => true | _ => false

/-- True only for the cursor-open event. -/
def isCurOpen : Event → Bool | .curOpen => true | _ => false

/-- True only for the cursor-close event. -/
def isCurClose : Event → Bool | .curClose => true | _ => false

/-- True only for query-execution events. -/
def isQuery : Event → Bool | .query _ => true | _ => false

/-- Every acquired connection and cursor has been released. -/
def balanced (evs : List Event) : Prop :=
  evs.countP isConnOpen = evs.countP isConnClose ∧ evs.countP isCurOpen = evs.countP isCurClose

/-- How a handler terminates: a response, an `HTTPException`, the `TypeError`
raised by the malformed `HTTPException(code=500, ...)` re-raise, or an
uncaught database-driver exception. -/
inductive Outcome where
  | ok (resp : PyVal)
  | httpError (status : Nat) (detail : String)
  | raisedTypeError
  | dbError

/-- The column projection of `api.py`'s `get_table_data`:
`[field.nombre_campo for field in fields if field.obligatorio]`. -/
def query_fields (fields : List Field) : List String :=
  (fields.filter (fun f => f.obligatorio)).map (fun f => f.nombre_campo)

/-- The rows `get_table_data` returns: each result row zipped with the
selected column names, keeping only JSON-serializable values. -/
def exportRows (p : Payload) (db : List String → List (List PyVal)) : List PyVal :=
  (db (query_fields p.fields)).map (fun row =>
    PyVal.vdict (((query_fields p.fields).zip row).filter (fun kv => is_serializable kv.2)))

/-- The SQL text `get_table_data` builds. -/
def build_query (table_name : String) (fields : List Field) : String :=
  "SELECT " ++ String.intercalate ", " (query_fields fields) ++ " FROM " ++ table_name

/-- `api.py` handler `get_table_data` (`POST /table-data/`): validates that
some field is marked `obligatorio`, executes the projection query, filters
each row down to its serializable values, writes the artifact and returns the
same content.  Any exception of the body — including the validation
`HTTPException(400)` itself — is caught by `except Exception` and turns into
the `TypeError` of the malformed re-raise; the `finally` always closes cursor
and connection. -/
def get_table_data (table_name : String) (payload : Payload)
    (db : List String → List (List PyVal))
    (connOk cursorOk execOk writeOk : Bool) : Outcome × List Event :=
  if !connOk then
    (.httpError 500 "No se pudo conectar con la bd", [])
  else if !cursorOk then
    (.httpError 500 "No se pudo crear el cursor de conexion a la bd", [.connOpen, .connClose])
  else
    let selected := query_fields payload.fields
    if selected.isEmpty then
      (.raisedTypeError, [.connOpen, .curOpen, .curClose, .connClose])
    else
      let sql := build_query table_name payload.fields
      if !execOk then
        (.raisedTypeError, [.connOpen, .curOpen, .query sql, .curClose, .connClose])
      else if !writeOk then
        (.raisedTypeError, [.connOpen, .curOpen, .query sql, .curClose, .connClose])
      else
        let resp := PyVal.vdict [("table_name", .vstr table_name),
                                 ("data", .vlist (exportRows payload db))]
        let artifact := PyVal.vdict [("table_name", .vstr table_name),
                                     ("data", .vlist (exportRows payload db))]
        (.ok resp, [.connOpen, .curOpen, .query sql, .write artifact, .curClose, .connClose])

/-- The base-tables query text shared by the listing endpoints. -/
def tablesQuery : String :=
  "SELECT TABLE_NAME FROM INFORMATION_SCHEMA.TABLES WHERE TABLE_TYPE = 'BASE TABLE'"

/-- `api.py` handler `get_tables` (`POST /tables`): lists base tables; its
`try/except/finally` closes cursor and connection on success and on query
failure, and the cursor-creation failure path closes the connection before
raising. -/
def get_tables (tables : List String) (connOk cursorOk : Bool)
    (execErr : Option String) : Outcome × List Event :=
  if !connOk then
    (.httpError 500 "No se pudo conectar con la bd", [])
  else if !cursorOk then
    (.httpError 500 "No se pudo crear el cursor de conexion a la bd", [.connOpen, .connClose])
  else
    match execErr with
    | some e => (.httpError 500 e, [.connOpen, .curOpen, .query tablesQuery, .curClose, .connClose])
    | none =>
      (.ok (.vdict [("tables", .vlist (tables.map .vstr)),
                    ("total_tables", .vint tables.length)]),
       [.connOpen, .curOpen, .query tablesQuery, .curClose, .connClose])

/-- The column-structure query text. -/
def structureQuery : String :=
  "SELECT COLUMN_NAME, DATA_TYPE, CHARACTER_MAXIMUM_LENGTH, IS_NULLABLE FROM INFORMATION_SCHEMA.COLUMNS WHERE TABLE_NAME = ?"

/-- One row of `INFORMATION_SCHEMA.COLUMNS` as the structure endpoint reads it. -/
structure ColumnInfo where
  column_name : String
  data_type : String
  max_length : Option Int
  is_nullable : String

/-- The dictionary built per column by the structure endpoint. -/
def columnInfoToPy (c : ColumnInfo) : PyVal :=
  .vdict [("column_name", .vstr c.column_name),
          ("data_type", .vstr c.data_type),
          ("max_length", match c.max_length with | none => .vnull | some n => .vint n),
          ("is_nullable", .vstr c.is_nullable)]

/-- `api.py` handler `get_table_structure` (`POST /table-structure/`): has no
`try/finally`; on the empty-result (not-found) path it raises without closing
anything, a query failure propagates without closing anything, and even the
success path only calls `conn.close()`, never `cursor.close()`. -/
def get_table_structure (table_name : String) (cols : List ColumnInfo)
    (connOk cursorOk execOk : Bool) : Outcome × List Event :=
  if !connOk then
    (.httpError 500 "No se pudo conectar con la bd", [])
  else if !cursorOk then
    (.httpError 500 "No se pudo crear el cursor de conexion a la bd", [.connOpen, .connClose])
  else if !execOk then
    (.dbError, [.connOpen, .curOpen, .query structureQuery])
  else if cols.isEmpty then
    (.httpError 404 "No existe la tabla", [.connOpen, .curOpen, .query structureQuery])
  else
    (.ok (.vdict [("table_name", .vstr table_name),
                  ("columns", .vlist (cols.map columnInfoToPy))]),
     [.connOpen, .curOpen, .query structureQuery, .connClose])

/-- One relationship edge as the relation endpoints serialize it. -/
def relacionToPy (r : Relacion) : PyVal :=
  .vdict [("tabla_padre", .vstr r.tabla_padre),
          ("columna_padre", .vstr r.columna_padre),
          ("tabla_hija", .vstr r.tabla_hija),
          ("columna_hija", .vstr r.columna_hija)]

/-- `api.py` handler `get_table_relation` (`POST /table-relation/`): obtains
connection and cursor, delegates the catalog query (the helper
`relacion_tabla` it calls is not present in the repository sources; modelled
from the spec as the same endpoint-filtered catalog scan as
`DatabaseManager.get_table_relations`), and returns — the handler closes
neither cursor nor connection on any path after the cursor is created. -/
def get_table_relation (table_name : String) (catalog : List Relacion)
    (connOk cursorOk execOk : Bool) : Outcome × List Event :=
  if !connOk then
    (.httpError 500 "No se pudo conectar con la bd", [])
  else if !cursorOk then
    (.httpError 500 "No se pudo crear el cursor de conexion a la bd", [.connOpen, .connClose])
  else if !execOk then
    (.dbError, [.connOpen, .curOpen, .query ("relations " ++ table_name)])
  else
    (.ok (.vlist ((get_table_relations catalog table_name).map relacionToPy)),
     [.connOpen, .curOpen, .query ("relations " ++ table_name)])

/-- A `with DatabaseManager(...) as db: db.get_all_tables()` use of the
context-managed class in `db/database.py`: `cursor()` closes the cursor in
its `finally` whether or not the query raises, and `__exit__` closes the
connection on every exit from the `with` block. -/
def dbm_get_all_tables (tables : List String) (execOk : Bool) : Outcome × List Event :=
  if execOk then
    (.ok (.vdict [("tables", .vlist (tables.map .vstr)),
                  ("total_tables", .vint tables.length)]),
     [.connOpen, .curOpen, .query tablesQuery, .curClose, .connClose])
  else
    (.dbError, [.connOpen, .curOpen, .query tablesQuery, .curClose, .connClose])

/-- Looking a key up in a Python dictionary value. -/
def dictLookup : PyVal → String → Option PyVal
  | .vdict kvs, k => kvs.lookup k
  | _, _ => none

/-! ## Concrete inputs used by the example-level claims -/

/-- A fixed `datetime.now()` rendering for the doctype `creation` field. -/
def now0 : String := "2025-05-05 12:00:00.000000"

/-- The `Customers` field specs of the end-to-end assembly example: both
columns requested as required, no overrides. -/
def customersPayload : DocPayload :=
  { module := "Migracion"
    is_child_table := none
    fields := [{ nombre_campo := "CustomerId", tipo_campo := "int", obligatorio := true,
                 tipo_campo_erp := none, nombre_campo_erp := none },
               { nombre_campo := "CustomerName", tipo_campo := "varchar(100)", obligatorio := true,
                 tipo_campo_erp := none, nombre_campo_erp := none }] }

/-- Connection parameters for the example payloads. -/
def params0 : ConexionParams := { host := "localhost", database := "Siscont", password := "secret" }

/-- The `Orders` export example: one required column `OrderId`. -/
def ordersPayload : Payload :=
  { params := params0
    fields := [{ nombre_campo := "OrderId", tipo_campo := "int", obligatorio := true }] }

/-- The `Orders` table content: one row with `OrderId = 7`. -/
def ordersDb : List String → List (List PyVal) :=
  fun cols => if cols = ["OrderId"] then [[.vint 7]] else []

/-- The expected `Orders` export response. -/
def ordersResp : PyVal :=
  .vdict [("table_name", .vstr "Orders"), ("data", .vlist [.vdict [("OrderId", .vint 7)]])]

/-- A `Products` table whose `Price` column holds the decimal 12.50. -/
def productsPayload : Payload :=
  { params := params0
    fields := [{ nombre_campo := "Price", tipo_campo := "decimal", obligatorio := true }] }

/-- One `Products` row with the decimal value 12.50. -/
def productsDb : List String → List (List PyVal) :=
  fun cols => if cols = ["Price"] then [[.vdecimal (25 / 2)]] else []

/-- A payload whose fields all have `obligatorio = False`. -/
def allFalsePayload : Payload :=
  { params := params0
    fields := [{ nombre_campo := "OrderId", tipo_campo := "int", obligatorio := false },
               { nombre_campo := "Total", tipo_campo := "decimal", obligatorio := false }] }

/-- A payload with an empty field list. -/
def emptyPayload : Payload := { params := params0, fields := [] }

/-- An override field whose `tipo_campo_erp` is the whitelisted `Link`. -/
def exF1 : ErpField :=
  { nombre_campo := "Estado", tipo_campo := "int", obligatorio := false,
    tipo_campo_erp := some "Link", nombre_campo_erp := none }

/-- An override field whose `tipo_campo_erp` `Currency` is not whitelisted. -/
def exF2 : ErpField :=
  { nombre_campo := "Precio", tipo_campo := "money", obligatorio := true,
    tipo_campo_erp := some "Currency", nombre_campo_erp := none }

/-! ## Helper lemmas -/

theorem char_toNat_ofNat_valid (n : Nat) (h : n < 55296) : (Char.ofNat n).toNat = n := by
  have hv : n.isValidChar := Or.inl h
  rw [Char.ofNat, dif_pos hv]
  rfl

theorem toLower_toNat_of_upper {c : Char} (h : 65 ≤ c.toNat ∧ c.toNat ≤ 90) :
    (Char.toLower c).toNat = c.toNat + 32 := by
  unfold Char.toLower
  rw [if_pos ⟨h.1, h.2⟩]
  exact char_toNat_ofNat_valid _ (by omega)

theorem toLower_eq_self_of_not_upper {c : Char} (h : ¬(65 ≤ c.toNat ∧ c.toNat ≤ 90)) :
    Char.toLower c = c := by
  unfold Char.toLower
  rw [if_neg h]

theorem isUpperAZ_toLower (c : Char) : isUpperAZ (Char.toLower c) = false := by
  by_cases h : 65 ≤ c.toNat ∧ c.toNat ≤ 90
  · have h2 := toLower_toNat_of_upper h
    simp [isUpperAZ, h2]
    omega
  · rw [toLower_eq_self_of_not_upper h]
    simp [isUpperAZ]
    omega

theorem toLower_eq_self_of_no_upper {c : Char} (h : isUpperAZ c = false) :
    Char.toLower c = c := by
  apply toLower_eq_self_of_not_upper
  simp [isUpperAZ] at h
  omega

theorem sub1_id_of_no_upper (l : List Char) (h : ∀ c ∈ l, isUpperAZ c = false) :
    sub1 l = l := by
  induction l using sub1.induct with
  | case1 => simp [sub1]
  | case2 c => simp [sub1]
  | case3 a b c hcond ih =>
    simp only [Bool.and_eq_true] at hcond
    exact absurd hcond.1.2 (by simp [h b (by simp)])
  | case4 a b c hcond ih =>
    rw [sub1.eq_def]
    simp only [hcond, if_false, Bool.false_eq_true]
    rw [ih (fun x hx => h x (by simp at hx; rcases hx with h1 | h1 <;> simp [h1]))]

theorem sub2_id_of_no_upper (l : List Char) (h : ∀ c ∈ l, isUpperAZ c = false) :
    sub2 l = l := by
  induction l using sub2.induct with
  | case1 => simp [sub2]
  | case2 c => simp [sub2]
  | case3 a b c hcond ih =>
    simp only [Bool.and_eq_true] at hcond
    exact absurd hcond.2 (by simp [h b (by simp)])
  | case4 a b c hcond ih =>
    rw [sub2.eq_def]
    simp only [hcond, if_false, Bool.false_eq_true]
    rw [ih (fun x hx => h x (by simp at hx; rcases hx with h1 | h1 <;> simp [h1]))]

theorem map_toLower_id_of_no_upper (l : List Char) (h : ∀ c ∈ l, isUpperAZ c = false) :
    l.map Char.toLower = l := by
  induction l with
  | nil => rfl
  | cons a l ih =>
    simp only [List.map_cons]
    rw [toLower_eq_self_of_no_upper (h a (by simp)), ih (fun x hx => h x (by simp [hx]))]

theorem no_upper_map_toLower (l : List Char) :
    ∀ c ∈ l.map Char.toLower, isUpperAZ c = false := by
  intro c hc
  rw [List.mem_map] at hc
  obtain ⟨a, _, rfl⟩ := hc
  exact isUpperAZ_toLower a

theorem no_upper_of_snake {c : Char} (h : isSnakeChar c = true) : isUpperAZ c = false := by
  simp only [isSnakeChar, isLowerAZ, Bool.or_eq_true, Bool.and_eq_true, decide_eq_true_eq,
    beq_iff_eq] at h
  rcases h with (h | h) | h
  · simp [isUpperAZ]
    omega
  · simp [isUpperAZ]
    omega
  · subst h
    decide

theorem lookup_eq_none_of_paren {t : String} (l : List (String × String))
    (hl : ∀ p ∈ l, '(' ∉ p.1.data) (ht : '(' ∈ t.data) : l.lookup t = none := by
  induction l with
  | nil => rfl
  | cons a l ih =>
    rw [List.lookup]
    cases hbeq : t == a.1 with
    | true =>
      have heq : t = a.1 := eq_of_beq hbeq
      exact absurd (heq ▸ ht) (hl a (by simp))
    | false =>
      exact ih (fun p hp => hl p (by simp [hp]))

theorem is_serializable_serialize_value (v : PyVal) :
    is_serializable (serialize_value v) = true := by
  cases v <;> simp [serialize_value, pyStr, is_serializable]

theorem is_serializable_exportCell (v : PyVal) : is_serializable (exportCell v) = true := by
  unfold exportCell
  by_cases h : is_serializable v = true
  · simp [h]
  · simp [h, is_serializable_serialize_value]

theorem is_serializable_kvs_of_cells (kvs : List (String × PyVal))
    (h : ∀ kv ∈ kvs, is_serializable kv.2 = true) : is_serializable_kvs kvs = true := by
  induction kvs with
  | nil => rfl
  | cons kv rest ih =>
    obtain ⟨k, v⟩ := kv
    rw [is_serializable_kvs]
    simp only [Bool.and_eq_true]
    exact ⟨h (k, v) (by simp), ih (fun p hp => h p (by simp [hp]))⟩

theorem is_serializable_list_of_elems (xs : List PyVal)
    (h : ∀ x ∈ xs, is_serializable x = true) : is_serializable_list xs = true := by
  induction xs with
  | nil => rfl
  | cons x rest ih =>
    rw [is_serializable_list]
    simp only [Bool.and_eq_true]
    exact ⟨h x (by simp), ih (fun p hp => h p (by simp [hp]))⟩

/-! ## Claim theorems -/

/-- C1: for the `Customers` example (columns `CustomerId int` and
`CustomerName varchar(100)`, both required, no overrides), the doctype that
`generate_doctype_json` assembles and persists has exactly the claimed fields
and field order — but the Python function's return value on the successful
path is `None`, not the assembled document, because the function body ends
without a `return` statement. -/
theorem C1_generate_doctype_returns_none :
    (assemble_doctype "Customers" customersPayload now0).fields =
      [{ fieldname := "customer_id", label := "CustomerId", fieldtype := "Int", reqd := true },
       { fieldname := "customer_name", label := "CustomerName", fieldtype := "Data", reqd := true }]
    ∧ (assemble_doctype "Customers" customersPayload now0).field_order =
        ["customer_id", "customer_name"]
    ∧ (generate_doctype_json "Customers" customersPayload now0 none).1 = none
    ∧ (generate_doctype_json "Customers" customersPayload now0 none).2 =
        some (assemble_doctype "Customers" customersPayload now0) := by
  refine ⟨?_, ?_, rfl, rfl⟩
  · simp +decide [assemble_doctype, customersPayload, process_field, pyTruthy,
      format_frappe_fieldname, pyLower, sub1, sub2, map_sql_type_to_frappe, frappeMapping]
  · simp +decide [assemble_doctype, customersPayload, process_field, pyTruthy,
      format_frappe_fieldname, pyLower, sub1, sub2, map_sql_type_to_frappe, frappeMapping]

/-- C2 counterexample: at the `Orders` example the handler's successful
response contains no `rows` key at all — the rows are stored under the key
`data` — so the claimed response shape `(table_name, rows)` is not what the
code returns. -/
theorem C2_response_has_no_rows_key :
    (get_table_data "Orders" ordersPayload ordersDb true true true true).1 = .ok ordersResp
    ∧ dictLookup ordersResp "rows" = none
    ∧ dictLookup ordersResp "data" = some (.vlist [.vdict [("OrderId", .vint 7)]]) :=
  ⟨rfl, rfl, rfl⟩

/-- C2 (amended): for every table name and payload with a non-empty selected
column list (all infrastructure steps succeeding), `get_table_data` returns
`(table_name, data)` with the filtered rows and writes an artifact with
identical content. -/
theorem C2_export_response_and_artifact (tn : String) (p : Payload)
    (db : List String → List (List PyVal)) (hne : query_fields p.fields ≠ []) :
    (get_table_data tn p db true true true true).1 =
      .ok (.vdict [("table_name", .vstr tn), ("data", .vlist (exportRows p db))])
    ∧ Event.write (.vdict [("table_name", .vstr tn), ("data", .vlist (exportRows p db))]) ∈
        (get_table_data tn p db true true true true).2 := by
  have h1 : (query_fields p.fields).isEmpty = false := by
    simpa [List.isEmpty_iff] using hne
  constructor
  · simp [get_table_data, h1]
  · simp [get_table_data, h1]

/-- C2 witness: the amended theorem applied at the `Orders` example. -/
theorem C2_export_witness :
    (get_table_data "Orders" ordersPayload ordersDb true true true true).1 =
      .ok (.vdict [("table_name", .vstr "Orders"), ("data", .vlist (exportRows ordersPayload ordersDb))]) :=
  (C2_export_response_and_artifact "Orders" ordersPayload ordersDb (by decide)).1

/-- C3 counterexample: `map_sql_type_to_frappe` does not strip a parenthesized
suffix before lookup — `int(4)` falls through to the default `Data` while
`int` maps to `Int`, so the claimed suffix-invariance fails in general. -/
theorem C3_suffix_not_stripped :
    map_sql_type_to_frappe "int(4)" = "Data"
    ∧ map_sql_type_to_frappe "int" = "Int"
    ∧ map_sql_type_to_frappe "int(4)" ≠ map_sql_type_to_frappe "int" :=
  ⟨by decide, by decide, by decide⟩

/-- C3 (amended): the lookup is an exact dictionary lookup of the lowercased
string, so every type string containing a parenthesis misses the table and
maps to the default `Data`; in particular
`map_sql_type_to_frappe "varchar(255)" = map_sql_type_to_frappe "varchar"`
holds only because both sides are `Data`. -/
theorem C3_paren_suffix_defaults_to_Data (s : String) (hs : '(' ∈ s.data) :
    map_sql_type_to_frappe s = "Data" := by
  have hp : '(' ∈ (pyLower s).data := by
    show '(' ∈ s.data.map Char.toLower
    have h1 := List.mem_map_of_mem Char.toLower hs
    simpa using h1
  unfold map_sql_type_to_frappe
  rw [lookup_eq_none_of_paren frappeMapping (by decide) hp]
  rfl

/-- C3 witness: the amended theorem applied at `varchar(255)`, which therefore
agrees with `map_sql_type_to_frappe "varchar"`. -/
theorem C3_paren_witness :
    map_sql_type_to_frappe "varchar(255)" = "Data"
    ∧ map_sql_type_to_frappe "varchar(255)" = map_sql_type_to_frappe "varchar" :=
  ⟨C3_paren_suffix_defaults_to_Data "varchar(255)" (by decide),
   (C3_paren_suffix_defaults_to_Data "varchar(255)" (by decide)).trans (by decide)⟩

/-- C4: `format_frappe_fieldname` is idempotent on every string, leaves
identifiers already in snake_case with no capitals unchanged, and sends
`CustomerID` to `customer_id` and `customer_id` to itself. -/
theorem C4_normalize_properties :
    (∀ x : String, format_frappe_fieldname (format_frappe_fieldname x) = format_frappe_fieldname x)
    ∧ (∀ x : String, (∀ c ∈ x.data, isSnakeChar c = true) → format_frappe_fieldname x = x)
    ∧ format_frappe_fieldname "CustomerID" = "customer_id"
    ∧ format_frappe_fieldname "customer_id" = "customer_id" := by
  refine ⟨?_, ?_, ?_, ?_⟩
  · intro x
    show pyLower ⟨sub2 (sub1 (pyLower ⟨sub2 (sub1 x.data)⟩).data)⟩ = _
    have hL : (pyLower ⟨sub2 (sub1 x.data)⟩).data = (sub2 (sub1 x.data)).map Char.toLower := rfl
    have hnu := no_upper_map_toLower (sub2 (sub1 x.data))
    rw [hL, sub1_id_of_no_upper _ hnu, sub2_id_of_no_upper _ hnu]
    show (⟨((sub2 (sub1 x.data)).map Char.toLower).map Char.toLower⟩ : String) = _
    rw [map_toLower_id_of_no_upper _ hnu]
    rfl
  · intro x hx
    have hnu : ∀ c ∈ x.data, isUpperAZ c = false := fun c hc => no_upper_of_snake (hx c hc)
    show pyLower ⟨sub2 (sub1 x.data)⟩ = x
    rw [sub1_id_of_no_upper _ hnu, sub2_id_of_no_upper _ hnu]
    show (⟨x.data.map Char.toLower⟩ : String) = x
    rw [map_toLower_id_of_no_upper _ hnu]
  · simp +decide [format_frappe_fieldname, pyLower, sub1, sub2]
  · simp +decide [format_frappe_fieldname, pyLower, sub1, sub2]

/-- C4 witness: the snake_case-preservation clause applied at `abc_123`. -/
theorem C4_normalize_witness : format_frappe_fieldname "abc_123" = "abc_123" :=
  C4_normalize_properties.2.1 "abc_123" (by decide)

/-- C5: for every foreign-key catalog and table name, an edge is in
`get_table_relations` exactly when it is in `get_all_relations` and has the
table at either endpoint, in catalog order. -/
theorem C5_relationships_filter (catalog : List Relacion) (t : String) (e : Relacion) :
    e ∈ get_table_relations catalog t ↔
      e ∈ get_all_relations catalog ∧ (e.tabla_padre = t ∨ e.tabla_hija = t) := by
  simp [get_table_relations, get_all_relations, List.mem_filter]

/-- C6: a payload whose fields are all non-required is rejected before any
query is executed (the outcome is independent of the database and no query
event occurs), but the failure surfaces as the `TypeError` of the handler's
malformed re-raise — a server error — not as the intended
`HTTPException(400)` client validation error. -/
theorem C6_empty_fields_rejected_eval :
    ∀ db : List String → List (List PyVal),
      (get_table_data "Orders" allFalsePayload db true true true true).1 = .raisedTypeError
      ∧ ((get_table_data "Orders" allFalsePayload db true true true true).2.countP isQuery = 0)
      ∧ (get_table_data "Orders" allFalsePayload db true true true true).1 ≠
          .httpError 400 "No se proporcionaron campos obligatorios" := by
  intro db
  exact ⟨rfl, rfl, fun h => nomatch h⟩

/-- C7: `_process_field` resolves the field type by: a truthy whitelisted
override wins; a truthy non-whitelisted override falls back to the mapped
native type with the warning branch taken; no override means the mapped
native type with no warning. -/
theorem C7_fieldtype_resolution (f : ErpField) :
    (pyTruthy f.tipo_campo_erp = true →
      valid_frappe_fieldtypes.contains (f.tipo_campo_erp.getD "") = true →
      (process_field f).fieldtype = f.tipo_campo_erp.getD "" ∧ process_field_warns f = false)
    ∧ (pyTruthy f.tipo_campo_erp = true →
      valid_frappe_fieldtypes.contains (f.tipo_campo_erp.getD "") = false →
      (process_field f).fieldtype = map_sql_type_to_frappe f.tipo_campo
        ∧ process_field_warns f = true)
    ∧ (pyTruthy f.tipo_campo_erp = false →
      (process_field f).fieldtype = map_sql_type_to_frappe f.tipo_campo
        ∧ process_field_warns f = false) := by
  refine ⟨fun h1 h2 => ?_, fun h1 h2 => ?_, fun h1 => ?_⟩
  · simp at h2
    cases hn : pyTruthy f.nombre_campo_erp <;>
      simp [process_field, process_field_warns, h1, h2, hn]
  · simp at h2
    cases hn : pyTruthy f.nombre_campo_erp <;>
      simp [process_field, process_field_warns, h1, h2, hn]
  · cases hn : pyTruthy f.nombre_campo_erp <;>
      simp [process_field, process_field_warns, h1, hn]

/-- C7 witness: a whitelisted override `Link` is used directly without
warning; a non-whitelisted override `Currency` falls back to the mapped
native type (`money` maps to the default `Data`) with the warning taken. -/
theorem C7_fieldtype_witness :
    (process_field exF1).fieldtype = "Link" ∧ process_field_warns exF1 = false
    ∧ (process_field exF2).fieldtype = "Data" ∧ process_field_warns exF2 = true := by
  have h1 := (C7_fieldtype_resolution exF1).1 (by decide) (by decide)
  have h2 := (C7_fieldtype_resolution exF2).2.1 (by decide) (by decide)
  exact ⟨h1.1, h1.2, h2.1.trans (by decide), h2.2⟩

/-- C8 counterexample: on the not-found path of the `get_table_structure`
handler (columns query returns empty), the 404 is raised after connection and
cursor were acquired and neither is released. -/
theorem C8_structure_handler_leaks :
    (get_table_structure "Clientes" [] true true true).1 = .httpError 404 "No existe la tabla"
    ∧ (get_table_structure "Clientes" [] true true true).2.countP isConnOpen = 1
    ∧ (get_table_structure "Clientes" [] true true true).2.countP isConnClose = 0
    ∧ (get_table_structure "Clientes" [] true true true).2.countP isCurOpen = 1
    ∧ (get_table_structure "Clientes" [] true true true).2.countP isCurClose = 0 :=
  ⟨rfl, rfl, rfl, rfl, rfl⟩

/-- C8 (amended): the `get_tables` and `get_table_data` handlers and the
context-managed `DatabaseManager` release connection and cursor on every exit
path, but `get_table_structure` never closes its cursor on any path and
`get_table_relation` never closes the connection once the query phase is
reached. -/
theorem C8_scoped_operations_release :
    (∀ (tables : List String) (connOk cursorOk : Bool) (execErr : Option String),
      balanced (get_tables tables connOk cursorOk execErr).2)
    ∧ (∀ (tn : String) (p : Payload) (db : List String → List (List PyVal))
        (connOk cursorOk execOk writeOk : Bool),
      balanced (get_table_data tn p db connOk cursorOk execOk writeOk).2)
    ∧ (∀ (tables : List String) (execOk : Bool), balanced (dbm_get_all_tables tables execOk).2)
    ∧ (∀ (tn : String) (cols : List ColumnInfo) (connOk cursorOk execOk : Bool),
      (get_table_structure tn cols connOk cursorOk execOk).2.countP isCurClose = 0)
    ∧ (∀ (tn : String) (catalog : List Relacion) (execOk : Bool),
      (get_table_relation tn catalog true true execOk).2.countP isConnClose = 0) := by
  refine ⟨?_, ?_, ?_, ?_, ?_⟩
  · intro tables connOk cursorOk execErr
    cases connOk <;> cases cursorOk <;> cases execErr <;>
      simp [get_tables, balanced, List.countP_cons, isConnOpen, isConnClose, isCurOpen, isCurClose]
  · intro tn p db connOk cursorOk execOk writeOk
    cases connOk <;> cases cursorOk <;> cases execOk <;> cases writeOk <;>
      by_cases hsel : (query_fields p.fields).isEmpty <;>
        simp [get_table_data, hsel, balanced, List.countP_cons,
          isConnOpen, isConnClose, isCurOpen, isCurClose]
  · intro tables execOk
    cases execOk <;>
      simp [dbm_get_all_tables, balanced, List.countP_cons,
        isConnOpen, isConnClose, isCurOpen, isCurClose]
  · intro tn cols connOk cursorOk execOk
    cases connOk <;> cases cursorOk <;> cases execOk <;>
      by_cases hc : cols.isEmpty <;>
        simp [get_table_structure, hc, List.countP_cons, isCurClose]
  · intro tn catalog execOk
    cases execOk <;>
      simp [get_table_relation, List.countP_cons, isConnClose]

/-- C9 counterexample: the `/table-data` handler does not coerce a
non-serializable value — it drops the field from the exported row — so a
`Price` column holding the decimal 12.50 yields an empty row dictionary, not
the floating-point 12.5 the claim requires. -/
theorem C9_api_drops_decimal :
    (get_table_data "Products" productsPayload productsDb true true true true).1 =
      .ok (.vdict [("table_name", .vstr "Products"), ("data", .vlist [.vdict []])]) :=
  rfl

/-- C9 (amended): in `DatabaseManager.export_table_to_json` every
non-serializable cell is coerced through `serialize_value` (never aborting the
export): the decimal 12.50 becomes the float 12.5, a byte sequence with an
invalid byte decodes to the decodable subset of its characters, and every
value of the exported document — hence the artifact `json.dump` writes — is
JSON-serializable. -/
theorem C9_exporter_coerces :
    (∀ v : PyVal, is_serializable (exportCell v) = true)
    ∧ exportCell (.vdecimal (25 / 2)) = .vfloat (25 / 2)
    ∧ exportCell (.vbytes [65, 255, 66]) = .vstr "AB"
    ∧ ∀ (tn : String) (fields : List String) (db : List String → List (List PyVal)),
        is_serializable (export_table_to_json tn fields db) = true := by
  refine ⟨is_serializable_exportCell, rfl, rfl, ?_⟩
  intro tn fields db
  simp only [export_table_to_json]
  rw [is_serializable]
  apply is_serializable_kvs_of_cells
  intro kv hkv
  simp only [List.mem_cons, List.not_mem_nil, or_false] at hkv
  rcases hkv with rfl | rfl
  · rfl
  · rw [is_serializable]
    apply is_serializable_list_of_elems
    intro x hx
    rw [List.mem_map] at hx
    obtain ⟨row, _, rfl⟩ := hx
    rw [is_serializable]
    apply is_serializable_kvs_of_cells
    intro kv2 hkv2
    rw [List.mem_map] at hkv2
    obtain ⟨pr, _, rfl⟩ := hkv2
    exact is_serializable_exportCell pr.2

/-- C10: the columns `get_table_data` selects are exactly the names of the
payload fields with `obligatorio` true (an order-preserving subsequence of
the payload's field names); only those (serializable) columns appear in the
output rows; and a non-empty all-optional field list is rejected identically
to an empty one — though, due to the handler's blanket `except`, as the
re-raise `TypeError`, not as the written-but-swallowed client 400. -/
theorem C10_selected_columns_eval :
    (∀ (fields : List Field) (c : String),
      c ∈ query_fields fields ↔ ∃ f ∈ fields, f.obligatorio = true ∧ f.nombre_campo = c)
    ∧ (∀ fields : List Field,
      (query_fields fields).Sublist (fields.map (fun f => f.nombre_campo)))
    ∧ (∀ (p : Payload) (db : List String → List (List PyVal)),
      ((db (query_fields p.fields)).map (fun row =>
          (((query_fields p.fields).zip row).filter (fun kv => is_serializable kv.2)))).all
        (fun r => r.all (fun kv => (query_fields p.fields).contains kv.1)) = true)
    ∧ (∀ (tn : String) (db : List String → List (List PyVal)) (c1 c2 c3 c4 : Bool),
      get_table_data tn allFalsePayload db c1 c2 c3 c4 =
        get_table_data tn emptyPayload db c1 c2 c3 c4)
    ∧ (get_table_data "Orders" allFalsePayload (fun _ => []) true true true true).1 =
        .raisedTypeError := by
  refine ⟨?_, ?_, ?_, ?_, rfl⟩
  · intro fields c
    simp [query_fields, List.mem_map, List.mem_filter, and_assoc]
  · intro fields
    simpa [query_fields] using
      (List.filter_sublist (l := fields) (p := fun f => f.obligatorio)).map
        (fun f => f.nombre_campo)
  · intro p db
    rw [List.all_eq_true]
    intro r hr
    rw [List.mem_map] at hr
    obtain ⟨row, _, rfl⟩ := hr
    rw [List.all_eq_true]
    intro kv hkv
    have hmem := List.mem_of_mem_filter hkv
    have h1 := List.of_mem_zip hmem
    simpa using h1.1
  · intro tn db c1 c2 c3 c4
    cases c1 <;> cases c2 <;> cases c3 <;> cases c4 <;> rfl

end Migracion
